import Mathlib

/-!
Verification of the ITFlow Home Assistant integration
(`custom_components/onoff_itflow`): a shallow embedding of the status
mapper (`const.py`), the API gateway (`itflow_api.py`), the multi-bucket
ticket aggregation (`sensor.py`), the bounded attribute encoder
(`sensor.py`), and the document-publishing button flow (`button.py`),
together with theorems settling the specification claims.

Python values that flow through these functions (JSON payloads, config
entries, ticket dictionaries) are modelled by the inductive type `PyVal`.
Dictionaries are modelled as association lists with unique keys in
insertion order, which is how every dictionary in the embedded code is
built.  Machine-level aspects (the event loop, the aiohttp transport) are
modelled by passing remote outcomes in as data.
-/

/-- A Python value as used by the integration: `None`, booleans, integers,
strings, lists and (string-keyed) dictionaries. -/
inductive PyVal where
  | none
  | bool (b : Bool)
  | int (n : Int)
  | str (s : String)
  | list (xs : List PyVal)
  | dict (kvs : List (String × PyVal))

/-- Python truthiness (`bool(v)`): `None`, `False`, `0`, `""`, `[]` and
an empty dict are falsy, everything else is truthy. -/
def truthy : PyVal → Bool
  | .none => false
  | .bool b => b
  | .int n => n != 0
  | .str s => !s.isEmpty
  | .list xs => !xs.isEmpty
  | .dict kvs => !kvs.isEmpty

mutual

/-- Python `repr(v)` for the modelled values.  String values are rendered
between single quotes without inner-quote escaping; the inputs exercised
by the program contain no quote characters. -/
def pyRepr : PyVal → String
  | .none => "None"
  | .bool true => "True"
  | .bool false => "False"
  | .int n => toString n
  | .str s => "\x27" ++ s ++ "\x27"
  | .list xs => "[" ++ pyReprList xs ++ "]"
  | .dict kvs => "\x7b" ++ pyReprPairs kvs ++ "\x7d"

/-- Comma-separated `repr` of list elements. -/
def pyReprList : List PyVal → String
  | [] => ""
  | [x] => pyRepr x
  | x :: y :: rest => pyRepr x ++ ", " ++ pyReprList (y :: rest)

/-- Comma-separated `repr` of dict entries. -/
def pyReprPairs : List (String × PyVal) → String
  | [] => ""
  | [(k, v)] => "\x27" ++ k ++ "\x27: " ++ pyRepr v
  | (k, v) :: p :: rest =>
      "\x27" ++ k ++ "\x27: " ++ pyRepr v ++ ", " ++ pyReprPairs (p :: rest)

end

/-- Python `str(v)`: the string itself for strings, `repr` otherwise. -/
def pyStr : PyVal → String
  | .str s => s
  | v => pyRepr v

/-- Python `d.get(key, default)` on a dictionary modelled as an
association list with unique keys. -/
def dictGetD (kvs : List (String × PyVal)) (key : String) (default : PyVal) : PyVal :=
  match kvs.find? (fun kv => kv.1 == key) with
  | some kv => kv.2
  | Option.none => default

/-- Python `v.get(key, default)`; defined on dict values (`.get` on any
other value raises `AttributeError` in Python, a case the callers below
only reach behind an invariant that the value is a dict). -/
def pyGetD (v : PyVal) (key : String) (default : PyVal) : PyVal :=
  match v with
  | .dict kvs => dictGetD kvs key default
  | _ => default

mutual

/-- Python `==` on the modelled values: `True == 1`, `False == 0`,
otherwise values of different kinds are unequal; lists compare
elementwise, dicts compare entrywise (exact for the unique-key,
insertion-ordered dictionaries the program builds). -/
def pyEq : PyVal → PyVal → Bool
  | .none, .none => true
  | .bool a, .bool b => a == b
  | .bool a, .int b => (if a then (1 : Int) else 0) == b
  | .int a, .bool b => a == (if b then (1 : Int) else 0)
  | .int a, .int b => a == b
  | .str a, .str b => a == b
  | .list a, .list b => pyEqList a b
  | .dict a, .dict b => pyEqPairs a b
  | _, _ => false

/-- Elementwise Python `==` on lists. -/
def pyEqList : List PyVal → List PyVal → Bool
  | [], [] => true
  | a :: as, b :: bs => pyEq a b && pyEqList as bs
  | _, _ => false

/-- Entrywise Python `==` on dict association lists. -/
def pyEqPairs : List (String × PyVal) → List (String × PyVal) → Bool
  | [], [] => true
  | (ka, va) :: as, (kb, vb) :: bs => ka == kb && pyEq va vb && pyEqPairs as bs
  | _, _ => false

end

/-- Digit run with Python's underscore grouping: digits, optionally
separated by single underscores (`int("1_0") = 10`); underscores may not
lead, trail, or repeat.  Returns the numeric value when well formed. -/
def digitsValue : List Char → Option Nat
  | cs => go cs false false 0
where
  /-- `seenDigit` records that a digit has occurred, `afterSep` that the
  previous character was an underscore. -/
  go : List Char → Bool → Bool → Nat → Option Nat
  | [], seenDigit, afterSep, acc =>
      if seenDigit && !afterSep then some acc else Option.none
  | c :: rest, seenDigit, afterSep, acc =>
      if c.isDigit then go rest true false (10 * acc + (c.toNat - '0'.toNat))
      else if c == '_' && seenDigit && !afterSep then go rest seenDigit true acc
      else Option.none

/-- Python `int(s)` on a string: strip surrounding whitespace, optional
sign, then a digit run (with underscore grouping).  `Option.none` models
`ValueError`. -/
def pyIntOfString (s : String) : Option Int :=
  let cs := (s.data.dropWhile Char.isWhitespace).reverse.dropWhile Char.isWhitespace |>.reverse
  match cs with
  | '-' :: rest => (digitsValue rest).map (fun n => -(n : Int))
  | '+' :: rest => (digitsValue rest).map (fun n => (n : Int))
  | rest => (digitsValue rest).map (fun n => (n : Int))

/-- Python `int(v)` for the modelled values: identity on ints,
`True/False ↦ 1/0`, string parsing for strings; `Option.none` models the
`ValueError`/`TypeError` raised on everything else. -/
def pyInt : PyVal → Option Int
  | .int n => some n
  | .bool b => some (if b then 1 else 0)
  | .str s => pyIntOfString s
  | _ => Option.none

/-- Python slicing `v[:n]` for the sliceable modelled values (strings and
lists); other values are returned unchanged (slicing them raises in
Python and is outside the modelled domain — the sliced ticket fields are
strings). -/
def pyTrunc (v : PyVal) (n : Nat) : PyVal :=
  match v with
  | .str s => .str (String.mk (s.data.take n))
  | .list xs => .list (xs.take n)
  | other => other

/-! ## `const.py`: the status mapper -/

/-- `TICKET_STATUS_MAP` from `const.py`. -/
def TICKET_STATUS_MAP : List (String × String) :=
  [("1", "New"), ("2", "Open"), ("3", "On Hold"), ("4", "Resolved"),
   ("New", "New"), ("Open", "Open"), ("On Hold", "On Hold"),
   ("Resolved", "Resolved"), ("Closed", "Closed")]

/-- Python `str.isdigit()` for the ASCII strings this API produces:
nonempty and all characters decimal digits. -/
def str_isdigit (s : String) : Bool :=
  !s.isEmpty && s.data.all Char.isDigit

/-- Numeric value of an all-digit string (the `int(status_str)` call in
`map_ticket_status`, reached only when `isdigit` holds). -/
def digitStrToNat (s : String) : Nat :=
  s.data.foldl (fun acc c => 10 * acc + (c.toNat - '0'.toNat)) 0

/-- `TICKET_STATUS_MAP.get(status_str, status_str)`. -/
def statusMapGetD (key default : String) : String :=
  match TICKET_STATUS_MAP.find? (fun kv => kv.1 == key) with
  | some kv => kv.2
  | Option.none => default

/-- `map_ticket_status` from `const.py`: `None ↦ "Unknown"`, exact `"5"
↦ "Closed"`, digit strings above 5 ↦ `"Waiting..."`, else the fixed
table with pass-through default. -/
def map_ticket_status (status : PyVal) : String :=
  match status with
  | .none => "Unknown"
  | _ =>
    let status_str := pyStr status
    if status_str == "5" then "Closed"
    else if str_isdigit status_str && digitStrToNat status_str > 5 then "Waiting..."
    else statusMapGetD status_str status_str

/-- C8: the status canonicalization returns "Closed" for "5",
"Waiting..." for "6" and "9999", "Unknown" for `None`, "Open" for
"Open"; and the greater-than-5 numeric fallback never shadows a table
entry (every table key maps to its table value, so in particular numeric
5 resolves to "Closed" before the fallback applies). -/
theorem map_ticket_status_spec :
    map_ticket_status (.str "5") = "Closed" ∧
    map_ticket_status (.str "6") = "Waiting..." ∧
    map_ticket_status (.str "9999") = "Waiting..." ∧
    map_ticket_status .none = "Unknown" ∧
    map_ticket_status (.str "Open") = "Open" ∧
    ∀ kv ∈ TICKET_STATUS_MAP, map_ticket_status (.str kv.1) = kv.2 := by
  refine ⟨rfl, rfl, rfl, rfl, rfl, ?_⟩
  decide

/-! ## `itflow_api.py`: the API gateway -/

/-- Substring test: Python `needle in hay` on strings, as character
lists. -/
def containsSeq (needle : List Char) : List Char → Bool
  | [] => needle.isEmpty
  | c :: rest => needle.isPrefixOf (c :: rest) || containsSeq needle rest

/-- Python `s.lower()` for the ASCII strings this code compares. -/
def strLower (s : String) : String :=
  String.mk (s.data.map Char.toLower)

/-- One remote HTTP call as issued by a domain operation: the endpoint
path and the request data assembled for it (before the gateway injects
the API key). -/
structure Call where
  endpoint : String
  data : List (String × PyVal)

/-- The `{"success": False, "message": msg}` dictionaries the gateway
and the domain operations build on failure. -/
def failEnvelope (msg : String) : PyVal :=
  .dict [("success", .bool false), ("message", .str msg)]

/-- What the network did for one request: a response with an HTTP status,
a body text and the body's JSON-parse result (`Option.none` when the body
is not valid JSON); or an `aiohttp.ClientError`; or any other exception
raised during the attempt. -/
inductive RequestOutcome where
  | http (status : Nat) (body : String) (json : Option PyVal)
  | clientError (msg : String)
  | otherError (msg : String)

/-- `data["api_key"] = self.api_key` if absent (both the GET and the
POST branch of `_request` do this before sending). -/
def injectApiKey (api_key : String) (data : List (String × PyVal)) : List (String × PyVal) :=
  if data.any (fun kv => kv.1 == "api_key") then data
  else data ++ [("api_key", .str api_key)]

namespace ITFlowClient

/-- `ITFlowClient._request` from `itflow_api.py`, with the network's
behaviour passed in as the `outcome`.  Both method branches normalize:
HTTP status ≥ 400 becomes `{"success": False, "message": "HTTP <status>:
<body>"}`; a body that fails to parse as JSON becomes `{"success":
False, "message": <body>}`; a transport or other exception becomes
`{"success": False, "message": <exception text>}`; otherwise the parsed
JSON body is returned verbatim. -/
def _request (api_key method : String) (data : List (String × PyVal))
    (outcome : RequestOutcome) : PyVal :=
  let _params := injectApiKey api_key data
  match outcome with
  | .clientError msg => failEnvelope msg
  | .otherError msg => failEnvelope msg
  | .http status body json =>
    if method == "GET" then
      if status ≥ 400 then failEnvelope ("HTTP " ++ toString status ++ ": " ++ body)
      else
        match json with
        | some result => result
        | Option.none => failEnvelope body
    else
      if status ≥ 400 then failEnvelope ("HTTP " ++ toString status ++ ": " ++ body)
      else
        match json with
        | some result => result
        | Option.none => failEnvelope body

/-- The generic-update tail of `update_ticket`: assemble
`/tickets/update.php` data with optional `ticket_status` and
`ticket_priority` and issue the call. -/
def update_ticket_generic (remote : Call → PyVal) (client_id ticket_id : PyVal)
    (status priority : Option String) : List Call × Except String PyVal :=
  let data : List (String × PyVal) :=
    [("client_id", client_id), ("ticket_id", ticket_id)]
    ++ (match status with
        | some s => if !s.isEmpty then [("ticket_status", .str s)] else []
        | Option.none => [])
    ++ (match priority with
        | some p => if !p.isEmpty then [("ticket_priority", .str p)] else []
        | Option.none => [])
  let call : Call := ⟨"/tickets/update.php", data⟩
  ([call], .ok (remote call))

/-- `ITFlowClient.update_ticket` from `itflow_api.py`.  For a truthy
status whose lowercase form is `"closed"` it first posts to
`/tickets/close.php`; that result is returned unless it is unsuccessful
with a message containing `"404"`, in which case the generic update
endpoint is called next.  Returns the calls issued in order, and the
result (`Except.error` models the `AttributeError` Python raises when the
close response is not a dictionary). -/
def update_ticket (remote : Call → PyVal) (client_id ticket_id : PyVal)
    (status priority : Option String) : List Call × Except String PyVal :=
  let isClosedStatus :=
    match status with
    | some s => !s.isEmpty && strLower s == "closed"
    | Option.none => false
  if isClosedStatus then
    let data : List (String × PyVal) := [("client_id", client_id), ("ticket_id", ticket_id)]
    let call1 : Call := ⟨"/tickets/close.php", data⟩
    let result := remote call1
    match result with
    | .dict kvs =>
      if truthy (dictGetD kvs "success" .none)
          || !containsSeq "404".data (pyStr (dictGetD kvs "message" (.str ""))).data then
        ([call1], .ok result)
      else
        let rest := update_ticket_generic remote client_id ticket_id status priority
        (call1 :: rest.1, rest.2)
    | _ => ([call1], .error "AttributeError")
  else
    update_ticket_generic remote client_id ticket_id status priority

/-- `ITFlowClient.update_document` from `itflow_api.py`: a falsy
`document_id` short-circuits with a failure envelope and no remote call;
a `document_id` that does not coerce to a positive integer likewise;
otherwise the update is posted with the id and client id as strings and
the truthy optional fields attached.  `Except.error` models the
`AttributeError` raised by `result.get` when the remote returns a
non-dictionary. -/
def update_document (remote : Call → PyVal) (client_id document_id : PyVal)
    (document_name document_content document_description : PyVal) :
    List Call × Except String PyVal :=
  if !truthy document_id then
    ([], .ok (failEnvelope "document_id is required"))
  else
    match pyInt document_id with
    | Option.none => ([], .ok (failEnvelope ("Invalid document_id: " ++ pyStr document_id)))
    | some doc_id_int =>
      if doc_id_int ≤ 0 then
        ([], .ok (failEnvelope ("Invalid document_id: " ++ pyStr document_id)))
      else
        let data : List (String × PyVal) :=
          [("document_id", .str (toString doc_id_int)), ("client_id", .str (pyStr client_id))]
          ++ (if truthy document_name then [("document_name", .str (pyStr document_name))] else [])
          ++ (if truthy document_description then
                [("document_description", .str (pyStr document_description))] else [])
          ++ (if truthy document_content then
                [("document_content", .str (pyStr document_content))] else [])
        let call : Call := ⟨"/documents/update.php", data⟩
        let result := remote call
        match result with
        | .dict _ => ([call], .ok result)
        | _ => ([call], .error "AttributeError")

end ITFlowClient

/-- Whether a value is a Python dictionary. -/
def PyVal.isDict : PyVal → Bool
  | .dict _ => true
  | _ => false

/-- C3 (amended): for every endpoint, method and remote outcome the
gateway request operation returns a value and never raises: on HTTP
status ≥ 400 it returns the failure dictionary with message
"HTTP <status>: <body text>"; on a body that fails to parse as JSON it
returns the failure dictionary carrying the raw body text; on any
transport or other exception it returns the failure dictionary carrying
the exception text; on a successfully parsed body it returns the parsed
JSON value verbatim (which need not be a dictionary). -/
theorem _request_normalizes (api_key method : String) (data : List (String × PyVal)) :
    (∀ msg, ITFlowClient._request api_key method data (.clientError msg) = failEnvelope msg) ∧
    (∀ msg, ITFlowClient._request api_key method data (.otherError msg) = failEnvelope msg) ∧
    (∀ status body json, 400 ≤ status →
      ITFlowClient._request api_key method data (.http status body json)
        = failEnvelope ("HTTP " ++ toString status ++ ": " ++ body)) ∧
    (∀ status body, status < 400 →
      ITFlowClient._request api_key method data (.http status body Option.none)
        = failEnvelope body) ∧
    (∀ status body result, status < 400 →
      ITFlowClient._request api_key method data (.http status body (some result)) = result) := by
  refine ⟨fun msg => rfl, fun msg => rfl, ?_, ?_, ?_⟩
  · intro status body json h
    simp [ITFlowClient._request, ge_iff_le, h]
  · intro status body h
    have h' : ¬ (400 ≤ status) := by omega
    simp [ITFlowClient._request, ge_iff_le, h']
  · intro status body result h
    have h' : ¬ (400 ≤ status) := by omega
    simp [ITFlowClient._request, ge_iff_le, h']

/-- Witness for `_request_normalizes` at concrete inputs. -/
theorem _request_normalizes_witness :
    ITFlowClient._request "key" "GET" [] (.http 503 "busy" Option.none)
      = failEnvelope ("HTTP " ++ toString 503 ++ ": " ++ "busy") :=
  (_request_normalizes "key" "GET" []).2.2.1 503 "busy" Option.none (by decide)

/-- C3 counterexample: a 200 response whose body parses as a JSON array
is returned verbatim by `_request`, so the returned value is not a
dictionary — the claim that the operation always returns a
response-envelope dictionary fails on this outcome. -/
theorem _request_nondict_counterexample :
    ITFlowClient._request "key" "GET" []
        (.http 200 "[1, 2]" (some (.list [.int 1, .int 2])))
      = .list [.int 1, .int 2] ∧
    PyVal.isDict (ITFlowClient._request "key" "GET" []
        (.http 200 "[1, 2]" (some (.list [.int 1, .int 2])))) = false :=
  ⟨rfl, rfl⟩

/-- C4: `update_ticket` with status "Closed" posts to the dedicated
close endpoint first; the close result is returned without touching
the generic endpoint unless it is a failure whose message contains
"404", in which case the generic update endpoint is called next with
`ticket_status = "Closed"`. -/
theorem update_ticket_closed_spec (remote : Call → PyVal) (client_id ticket_id : PyVal)
    (priority : Option String) (kvs : List (String × PyVal))
    (hresp : remote ⟨"/tickets/close.php", [("client_id", client_id), ("ticket_id", ticket_id)]⟩
      = .dict kvs) :
    ((truthy (dictGetD kvs "success" .none)
        || !containsSeq "404".data (pyStr (dictGetD kvs "message" (.str ""))).data) = true →
      ITFlowClient.update_ticket remote client_id ticket_id (some "Closed") priority
        = ([⟨"/tickets/close.php", [("client_id", client_id), ("ticket_id", ticket_id)]⟩],
           .ok (.dict kvs))) ∧
    ((truthy (dictGetD kvs "success" .none)
        || !containsSeq "404".data (pyStr (dictGetD kvs "message" (.str ""))).data) = false →
      ITFlowClient.update_ticket remote client_id ticket_id (some "Closed") priority
        = (⟨"/tickets/close.php", [("client_id", client_id), ("ticket_id", ticket_id)]⟩ ::
            (ITFlowClient.update_ticket_generic remote client_id ticket_id (some "Closed") priority).1,
           (ITFlowClient.update_ticket_generic remote client_id ticket_id (some "Closed") priority).2) ∧
      ∀ c ∈ (ITFlowClient.update_ticket_generic remote client_id ticket_id
                (some "Closed") priority).1,
        c.endpoint = "/tickets/update.php" ∧ ("ticket_status", PyVal.str "Closed") ∈ c.data) := by
  have hclosed : (!("Closed".isEmpty) && (strLower "Closed" == "closed")) = true := by decide
  constructor
  · intro hcond
    simp only [ITFlowClient.update_ticket]
    norm_num [hresp, hcond, hclosed]
  · intro hcond
    refine ⟨?_, ?_⟩
    · simp only [ITFlowClient.update_ticket]
      norm_num [hresp, hcond, hclosed]
    · intro c hc
      simp only [ITFlowClient.update_ticket_generic, List.mem_singleton] at hc
      subst hc
      refine ⟨rfl, ?_⟩
      simp
      exact Or.inl (by decide)

/-- Witness for `update_ticket_closed_spec`: a close endpoint answering
"HTTP 404: Not Found" makes `update_ticket` fall back to the generic
update endpoint with `ticket_status = "Closed"`. -/
theorem update_ticket_closed_spec_witness :
    ITFlowClient.update_ticket
        (fun c => if c.endpoint == "/tickets/close.php" then
            failEnvelope "HTTP 404: Not Found" else .dict [("success", .bool true)])
        (.int 1) (.int 42) (some "Closed") Option.none
      = (⟨"/tickets/close.php", [("client_id", .int 1), ("ticket_id", .int 42)]⟩ ::
          (ITFlowClient.update_ticket_generic
            (fun c => if c.endpoint == "/tickets/close.php" then
                failEnvelope "HTTP 404: Not Found" else .dict [("success", .bool true)])
            (.int 1) (.int 42) (some "Closed") Option.none).1,
         (ITFlowClient.update_ticket_generic
            (fun c => if c.endpoint == "/tickets/close.php" then
                failEnvelope "HTTP 404: Not Found" else .dict [("success", .bool true)])
            (.int 1) (.int 42) (some "Closed") Option.none).2) ∧
      ∀ c ∈ (ITFlowClient.update_ticket_generic
            (fun c => if c.endpoint == "/tickets/close.php" then
                failEnvelope "HTTP 404: Not Found" else .dict [("success", .bool true)])
            (.int 1) (.int 42) (some "Closed") Option.none).1,
        c.endpoint = "/tickets/update.php" ∧ ("ticket_status", PyVal.str "Closed") ∈ c.data :=
  (update_ticket_closed_spec
      (fun c => if c.endpoint == "/tickets/close.php" then
          failEnvelope "HTTP 404: Not Found" else .dict [("success", .bool true)])
      (.int 1) (.int 42) Option.none
      [("success", .bool false), ("message", .str "HTTP 404: Not Found")]
      rfl).2 (by decide)

/-! ## `sensor.py`: multi-bucket ticket aggregation

The two ticket-list sensors issue one `get_tickets` call per status
bucket, admit tickets that pass the view's raw-status predicate, have a
truthy `ticket_id` and are not a duplicate of an already admitted id,
then sort by `ticket_created_at` descending.  The remote behaviour is
passed in as `get_tickets : String → PyVal` mapping each bucket status
to the envelope the gateway returned for it.  Admitted tickets are kept
as their dictionary entry lists. -/

/-- The inner `for ticket in tickets` loop shared by the ticket sensors:
admit each dictionary ticket that passes the view predicate on
`str(ticket.get("ticket_status", ""))`, has truthy `ticket_id`, and
whose id is not `==` to an already admitted ticket's id.  A non-dict
element raises `AttributeError` in Python, aborting this bucket's loop
while keeping what was already admitted. -/
def admitTickets (accept : String → Bool) (acc : List (List (String × PyVal))) :
    List PyVal → List (List (String × PyVal))
  | [] => acc
  | t :: rest =>
    match t with
    | .dict kvs =>
      let ticket_id := dictGetD kvs "ticket_id" .none
      let raw_status := pyStr (dictGetD kvs "ticket_status" (.str ""))
      if accept raw_status && truthy ticket_id
          && !(acc.any (fun u => pyEq (dictGetD u "ticket_id" .none) ticket_id)) then
        admitTickets accept (acc ++ [kvs]) rest
      else
        admitTickets accept acc rest
    | _ => acc

/-- One bucket iteration: on a successful envelope, run the admission
loop over its `data` list; a failed envelope, a non-list `data`, or a
non-dict response (whose `.get` raises, caught by the per-bucket
`except`) contributes nothing. -/
def processBucket (accept : String → Bool) (acc : List (List (String × PyVal)))
    (response : PyVal) : List (List (String × PyVal)) :=
  match response with
  | .dict kvs =>
    if truthy (dictGetD kvs "success" .none) then
      match dictGetD kvs "data" (.list []) with
      | .list tickets => admitTickets accept acc tickets
      | _ => acc
    else acc
  | _ => acc

/-- The sort key `x.get("ticket_created_at", "")`. -/
def created_key (t : List (String × PyVal)) : PyVal :=
  dictGetD t "ticket_created_at" (.str "")

/-- The sort key as a string: the service's `created_at` values are
strings and a missing key defaults to `""`; a non-string key also maps
to `""` here (in Python, sorting mixed non-string keys raises
`TypeError`, which is outside the modelled domain). -/
def createdKeyStr (t : List (String × PyVal)) : String :=
  match created_key t with
  | .str s => s
  | _ => ""

/-- Lexicographic comparison on character lists by code point — Python's
string `<=`. -/
def charListLe : List Char → List Char → Bool
  | [], _ => true
  | _ :: _, [] => false
  | x :: xs, y :: ys =>
    if x.toNat = y.toNat then charListLe xs ys else decide (x.toNat < y.toNat)

/-- The descending comparison used by `sort(key=..., reverse=True)`:
`a` may precede `b` when `b`'s key ≤ `a`'s key. -/
def createdDesc (a b : List (String × PyVal)) : Bool :=
  charListLe (createdKeyStr b).data (createdKeyStr a).data

/-- `list.sort(key=lambda x: x.get("ticket_created_at", ""), reverse=True)`. -/
def sortTicketsDesc (ts : List (List (String × PyVal))) : List (List (String × PyVal)) :=
  ts.mergeSort createdDesc

namespace ITFlowNewTicketsSensor

/-- The buckets queried by the new-tickets sensor. -/
def bucket_statuses : List String := ["1", "New"]

/-- The new view admits only raw status `"1"`. -/
def accept_raw (raw : String) : Bool := raw == "1"

/-- The merged (pre-sort) `all_new_tickets` list built by
`ITFlowNewTicketsSensor.async_update`. -/
def all_new_tickets (get_tickets : String → PyVal) : List (List (String × PyVal)) :=
  (bucket_statuses.map get_tickets).foldl (processBucket accept_raw) []

/-- `ITFlowNewTicketsSensor.async_update`: merged buckets sorted by
`ticket_created_at` descending. -/
def async_update (get_tickets : String → PyVal) : List (List (String × PyVal)) :=
  sortTicketsDesc (all_new_tickets get_tickets)

end ITFlowNewTicketsSensor

namespace ITFlowOpenTicketsSensor

/-- The buckets queried by the open-tickets sensor. -/
def bucket_statuses : List String := ["1", "2", "3", "New", "Open", "On Hold"]

/-- The open view excludes raw statuses `"4"` (Resolved) and `"5"`
(Closed): `raw_status not in ["4", "5"]`. -/
def accept_raw (raw : String) : Bool := !(raw == "4" || raw == "5")

/-- The merged (pre-sort) `all_tickets` list built by
`ITFlowOpenTicketsSensor.async_update`. -/
def all_tickets (get_tickets : String → PyVal) : List (List (String × PyVal)) :=
  (bucket_statuses.map get_tickets).foldl (processBucket accept_raw) []

/-- `ITFlowOpenTicketsSensor.async_update`: merged buckets sorted by
`ticket_created_at` descending. -/
def async_update (get_tickets : String → PyVal) : List (List (String × PyVal)) :=
  sortTicketsDesc (all_tickets get_tickets)

end ITFlowOpenTicketsSensor

/-- Totality of the lexicographic comparison. -/
theorem charListLe_total : ∀ a b : List Char, (charListLe a b || charListLe b a) = true
  | [], [] => rfl
  | [], _ :: _ => rfl
  | _ :: _, [] => rfl
  | x :: xs, y :: ys => by
    simp only [charListLe]
    by_cases h : x.toNat = y.toNat
    · rw [if_pos h, if_pos h.symm]
      exact charListLe_total xs ys
    · rw [if_neg h, if_neg (Ne.symm h)]
      simp only [Bool.or_eq_true, decide_eq_true_eq]
      omega

/-- Transitivity of the lexicographic comparison. -/
theorem charListLe_trans : ∀ a b c : List Char,
    charListLe a b = true → charListLe b c = true → charListLe a c = true
  | [], _, _ => fun _ _ => rfl
  | _ :: _, [], _ => fun h _ => by simp [charListLe] at h
  | _ :: _, _ :: _, [] => fun _ h => by simp [charListLe] at h
  | x :: xs, y :: ys, z :: zs => fun hab hbc => by
    simp only [charListLe] at hab hbc ⊢
    by_cases h1 : x.toNat = y.toNat
    · rw [if_pos h1] at hab
      by_cases h2 : y.toNat = z.toNat
      · rw [if_pos h2] at hbc
        rw [if_pos (h1.trans h2)]
        exact charListLe_trans xs ys zs hab hbc
      · rw [if_neg h2] at hbc
        have hyz : y.toNat < z.toNat := by simpa using hbc
        rw [if_neg (by omega : ¬ x.toNat = z.toNat)]
        simp only [decide_eq_true_eq]
        omega
    · rw [if_neg h1] at hab
      have hxy : x.toNat < y.toNat := by simpa using hab
      by_cases h2 : y.toNat = z.toNat
      · rw [if_neg (by omega : ¬ x.toNat = z.toNat)]
        simp only [decide_eq_true_eq]
        omega
      · rw [if_neg h2] at hbc
        have hyz : y.toNat < z.toNat := by simpa using hbc
        rw [if_neg (by omega : ¬ x.toNat = z.toNat)]
        simp only [decide_eq_true_eq]
        omega

/-- Totality of the descending created-at comparison. -/
theorem createdDesc_total (a b : List (String × PyVal)) :
    (createdDesc a b || createdDesc b a) = true := by
  simpa [createdDesc] using
    charListLe_total (createdKeyStr b).data (createdKeyStr a).data

/-- Transitivity of the descending created-at comparison. -/
theorem createdDesc_trans (a b c : List (String × PyVal)) :
    createdDesc a b = true → createdDesc b c = true → createdDesc a c = true := by
  intro h1 h2
  exact charListLe_trans _ _ _ h2 h1

/-- `==` on strings is symmetric as a Bool. -/
theorem strBeq_comm (a b : String) : (a == b) = (b == a) := by
  by_cases h : a = b
  · subst h; rfl
  · rw [beq_eq_false_iff_ne.mpr h, beq_eq_false_iff_ne.mpr (Ne.symm h)]

mutual

/-- Python `==` is symmetric on the modelled values. -/
theorem pyEq_symm : ∀ a b : PyVal, pyEq a b = pyEq b a
  | .none, .none => rfl
  | .bool a, .bool b => by cases a <;> cases b <;> rfl
  | .bool a, .int b => by
    show ((if a then (1 : Int) else 0) == b) = (b == if a then (1 : Int) else 0)
    cases a <;> simp [beq_iff_eq, eq_comm]
  | .int a, .bool b => by
    show (a == if b then (1 : Int) else 0) = ((if b then (1 : Int) else 0) == a)
    cases b <;> simp [beq_iff_eq, eq_comm]
  | .int a, .int b => by
    show (a == b) = (b == a)
    simp [beq_iff_eq, eq_comm]
  | .str a, .str b => strBeq_comm a b
  | .list a, .list b => pyEqList_symm a b
  | .dict a, .dict b => pyEqPairs_symm a b
  | .none, .bool _ => rfl
  | .none, .int _ => rfl
  | .none, .str _ => rfl
  | .none, .list _ => rfl
  | .none, .dict _ => rfl
  | .bool _, .none => rfl
  | .bool _, .str _ => rfl
  | .bool _, .list _ => rfl
  | .bool _, .dict _ => rfl
  | .int _, .none => rfl
  | .int _, .str _ => rfl
  | .int _, .list _ => rfl
  | .int _, .dict _ => rfl
  | .str _, .none => rfl
  | .str _, .bool _ => rfl
  | .str _, .int _ => rfl
  | .str _, .list _ => rfl
  | .str _, .dict _ => rfl
  | .list _, .none => rfl
  | .list _, .bool _ => rfl
  | .list _, .int _ => rfl
  | .list _, .str _ => rfl
  | .list _, .dict _ => rfl
  | .dict _, .none => rfl
  | .dict _, .bool _ => rfl
  | .dict _, .int _ => rfl
  | .dict _, .str _ => rfl
  | .dict _, .list _ => rfl

/-- Elementwise Python `==` is symmetric. -/
theorem pyEqList_symm : ∀ as bs : List PyVal, pyEqList as bs = pyEqList bs as
  | [], [] => rfl
  | [], _ :: _ => rfl
  | _ :: _, [] => rfl
  | a :: as, b :: bs => by
    show (pyEq a b && pyEqList as bs) = (pyEq b a && pyEqList bs as)
    rw [pyEq_symm a b, pyEqList_symm as bs]

/-- Entrywise Python `==` is symmetric. -/
theorem pyEqPairs_symm : ∀ as bs : List (String × PyVal), pyEqPairs as bs = pyEqPairs bs as
  | [], [] => rfl
  | [], _ :: _ => rfl
  | _ :: _, [] => rfl
  | (ka, va) :: as, (kb, vb) :: bs => by
    show (ka == kb && pyEq va vb && pyEqPairs as bs)
        = (kb == ka && pyEq vb va && pyEqPairs bs as)
    rw [strBeq_comm ka kb, pyEq_symm va vb, pyEqPairs_symm as bs]

end

/-- Every ticket in the admission loop's output satisfies any property
`Q` that holds for the initial accumulator and for every ticket passing
the view predicate with a truthy id. -/
theorem admitTickets_forall (accept : String → Bool) (Q : List (String × PyVal) → Prop)
    (hQ : ∀ kvs, accept (pyStr (dictGetD kvs "ticket_status" (.str ""))) = true →
      truthy (dictGetD kvs "ticket_id" .none) = true → Q kvs) :
    ∀ (ts : List PyVal) (acc : List (List (String × PyVal))),
      (∀ t ∈ acc, Q t) → ∀ t ∈ admitTickets accept acc ts, Q t := by
  intro ts
  induction ts with
  | nil => intro acc hacc t ht; exact hacc t (by simpa [admitTickets] using ht)
  | cons x rest ih =>
    intro acc hacc t ht
    cases x with
    | dict kvs =>
      simp only [admitTickets] at ht
      split at ht
      case isTrue hcond =>
        refine ih (acc ++ [kvs]) ?_ t ht
        intro u hu
        rcases List.mem_append.mp hu with h | h
        · exact hacc u h
        · have hu' : u = kvs := by simpa using h
          subst hu'
          have hparts := hcond
          simp only [Bool.and_eq_true] at hparts
          exact hQ u hparts.1.1 hparts.1.2
      case isFalse hcond => exact ih acc hacc t ht
    | none => exact hacc t (by simpa [admitTickets] using ht)
    | bool b => exact hacc t (by simpa [admitTickets] using ht)
    | int n => exact hacc t (by simpa [admitTickets] using ht)
    | str s => exact hacc t (by simpa [admitTickets] using ht)
    | list xs => exact hacc t (by simpa [admitTickets] using ht)

/-- `processBucket` preserves the same per-ticket property. -/
theorem processBucket_forall (accept : String → Bool) (Q : List (String × PyVal) → Prop)
    (hQ : ∀ kvs, accept (pyStr (dictGetD kvs "ticket_status" (.str ""))) = true →
      truthy (dictGetD kvs "ticket_id" .none) = true → Q kvs)
    (r : PyVal) (acc : List (List (String × PyVal)))
    (hacc : ∀ t ∈ acc, Q t) : ∀ t ∈ processBucket accept acc r, Q t := by
  cases r with
  | dict kvs =>
    intro t ht
    simp only [processBucket] at ht
    split at ht
    · split at ht
      · exact admitTickets_forall accept Q hQ _ acc hacc t ht
      · exact hacc t ht
    · exact hacc t ht
  | none => intro t ht; exact hacc t (by simpa [processBucket] using ht)
  | bool b => intro t ht; exact hacc t (by simpa [processBucket] using ht)
  | int n => intro t ht; exact hacc t (by simpa [processBucket] using ht)
  | str s => intro t ht; exact hacc t (by simpa [processBucket] using ht)
  | list xs => intro t ht; exact hacc t (by simpa [processBucket] using ht)

/-- Folding `processBucket` over any list of bucket responses preserves
the per-ticket property. -/
theorem foldl_processBucket_forall (accept : String → Bool) (Q : List (String × PyVal) → Prop)
    (hQ : ∀ kvs, accept (pyStr (dictGetD kvs "ticket_status" (.str ""))) = true →
      truthy (dictGetD kvs "ticket_id" .none) = true → Q kvs) :
    ∀ (rs : List PyVal) (acc : List (List (String × PyVal))),
      (∀ t ∈ acc, Q t) → ∀ t ∈ rs.foldl (processBucket accept) acc, Q t := by
  intro rs
  induction rs with
  | nil => intro acc hacc; simpa using hacc
  | cons r rest ih =>
    intro acc hacc t ht
    exact ih (processBucket accept acc r)
      (fun u hu => processBucket_forall accept Q hQ r acc hacc u hu) t ht

/-- Two admitted tickets with ids that are not Python-equal. -/
def distinctIds (a b : List (String × PyVal)) : Prop :=
  pyEq (dictGetD a "ticket_id" .none) (dictGetD b "ticket_id" .none) = false

/-- `distinctIds` is symmetric (by symmetry of Python `==`). -/
theorem distinctIds_symmetric : Symmetric distinctIds := by
  intro a b h
  unfold distinctIds at h ⊢
  rw [pyEq_symm]
  exact h

/-- The admission loop keeps admitted ids pairwise distinct: a ticket is
appended only when no already admitted ticket has a `==`-equal id. -/
theorem admitTickets_pairwise (accept : String → Bool) :
    ∀ (ts : List PyVal) (acc : List (List (String × PyVal))),
      List.Pairwise distinctIds acc → List.Pairwise distinctIds (admitTickets accept acc ts) := by
  intro ts
  induction ts with
  | nil => intro acc hacc; simpa [admitTickets] using hacc
  | cons x rest ih =>
    intro acc hacc
    cases x with
    | dict kvs =>
      simp only [admitTickets]
      split
      case isTrue hcond =>
        refine ih (acc ++ [kvs]) ?_
        rw [List.pairwise_append]
        refine ⟨hacc, by simp, ?_⟩
        intro a ha b hb
        have hb' : b = kvs := by simpa using hb
        subst hb'
        simp only [Bool.and_eq_true, Bool.not_eq_true'] at hcond
        have hnone := List.any_eq_false.mp hcond.2 a ha
        unfold distinctIds
        simpa using hnone
      case isFalse hcond => exact ih acc hacc
    | none => simpa [admitTickets] using hacc
    | bool b => simpa [admitTickets] using hacc
    | int n => simpa [admitTickets] using hacc
    | str s => simpa [admitTickets] using hacc
    | list xs => simpa [admitTickets] using hacc

/-- `processBucket` keeps admitted ids pairwise distinct. -/
theorem processBucket_pairwise (accept : String → Bool) (r : PyVal)
    (acc : List (List (String × PyVal))) (hacc : List.Pairwise distinctIds acc) :
    List.Pairwise distinctIds (processBucket accept acc r) := by
  cases r with
  | dict kvs =>
    simp only [processBucket]
    split
    · split
      · exact admitTickets_pairwise accept _ acc hacc
      · exact hacc
    · exact hacc
  | none => simpa [processBucket] using hacc
  | bool b => simpa [processBucket] using hacc
  | int n => simpa [processBucket] using hacc
  | str s => simpa [processBucket] using hacc
  | list xs => simpa [processBucket] using hacc

/-- Folding `processBucket` keeps admitted ids pairwise distinct. -/
theorem foldl_processBucket_pairwise (accept : String → Bool) :
    ∀ (rs : List PyVal) (acc : List (List (String × PyVal))),
      List.Pairwise distinctIds acc →
      List.Pairwise distinctIds (rs.foldl (processBucket accept) acc) := by
  intro rs
  induction rs with
  | nil => intro acc hacc; simpa using hacc
  | cons r rest ih =>
    intro acc hacc
    exact ih (processBucket accept acc r) (processBucket_pairwise accept r acc hacc)

/-- Sorting permutes, so pairwise-distinct ids survive it. -/
theorem sortTicketsDesc_pairwise (ts : List (List (String × PyVal)))
    (h : List.Pairwise distinctIds ts) : List.Pairwise distinctIds (sortTicketsDesc ts) :=
  ((List.mergeSort_perm ts createdDesc).pairwise_iff (fun ha => distinctIds_symmetric ha)).mpr h

/-- C5: in every aggregation pass the admitted ids are pairwise
non-equal (a duplicate id is dropped, first-seen wins); in particular,
a ticket with id 7 present in both queried buckets of the new-tickets
view yields exactly the first bucket's record. -/
theorem aggregation_dedup_first_seen :
    (∀ get_tickets : String → PyVal,
      List.Pairwise distinctIds (ITFlowNewTicketsSensor.async_update get_tickets)) ∧
    (∀ get_tickets : String → PyVal,
      List.Pairwise distinctIds (ITFlowOpenTicketsSensor.async_update get_tickets)) ∧
    ITFlowNewTicketsSensor.async_update
        (fun s => .dict [("success", .bool true),
          ("data", .list [.dict [("ticket_id", .int 7), ("ticket_status", .str "1"),
            ("ticket_subject", .str (if s == "1" then "first" else "second"))]])])
      = [[("ticket_id", .int 7), ("ticket_status", .str "1"),
          ("ticket_subject", .str "first")]] := by
  refine ⟨?_, ?_, ?_⟩
  · intro gt
    exact sortTicketsDesc_pairwise _
      (foldl_processBucket_pairwise _ _ [] List.Pairwise.nil)
  · intro gt
    exact sortTicketsDesc_pairwise _
      (foldl_processBucket_pairwise _ _ [] List.Pairwise.nil)
  · have hm : ITFlowNewTicketsSensor.all_new_tickets
        (fun s => .dict [("success", .bool true),
          ("data", .list [.dict [("ticket_id", .int 7), ("ticket_status", .str "1"),
            ("ticket_subject", .str (if s == "1" then "first" else "second"))]])])
      = [[("ticket_id", .int 7), ("ticket_status", .str "1"),
          ("ticket_subject", .str "first")]] := rfl
    show sortTicketsDesc _ = _
    rw [hm]
    simp [sortTicketsDesc]

/-- C7: the sequence returned by each aggregation pass is sorted by
`ticket_created_at` descending — for every pair of adjacent records the
earlier one's key is ≥ the later one's, missing keys comparing as the
empty string. -/
theorem aggregation_sorted_desc :
    (∀ get_tickets : String → PyVal,
      List.Chain' (fun a b => createdDesc a b = true)
        (ITFlowNewTicketsSensor.async_update get_tickets)) ∧
    (∀ get_tickets : String → PyVal,
      List.Chain' (fun a b => createdDesc a b = true)
        (ITFlowOpenTicketsSensor.async_update get_tickets)) := by
  constructor
  · intro gt
    exact List.Pairwise.chain'
      (List.sorted_mergeSort createdDesc_trans createdDesc_total
        (ITFlowNewTicketsSensor.all_new_tickets gt))
  · intro gt
    exact List.Pairwise.chain'
      (List.sorted_mergeSort createdDesc_trans createdDesc_total
        (ITFlowOpenTicketsSensor.all_tickets gt))

/-- C10: in both aggregation views every admitted ticket has a truthy
`ticket_id` — the admission condition requires it before the duplicate
check, so a missing, `None`, zero or otherwise falsy id is never
admitted. -/
theorem aggregation_requires_truthy_id :
    (∀ get_tickets : String → PyVal,
      ∀ t ∈ ITFlowNewTicketsSensor.async_update get_tickets,
        truthy (dictGetD t "ticket_id" .none) = true) ∧
    (∀ get_tickets : String → PyVal,
      ∀ t ∈ ITFlowOpenTicketsSensor.async_update get_tickets,
        truthy (dictGetD t "ticket_id" .none) = true) := by
  constructor
  · intro gt t ht
    have ht' := List.mem_mergeSort.mp ht
    exact foldl_processBucket_forall _ _ (fun kvs _ h2 => h2) _ []
      (by intro u hu; cases hu) t ht'
  · intro gt t ht
    have ht' := List.mem_mergeSort.mp ht
    exact foldl_processBucket_forall _ _ (fun kvs _ h2 => h2) _ []
      (by intro u hu; cases hu) t ht'

/-- Witness for `aggregation_requires_truthy_id`: a concrete successful
bucket response whose single admitted ticket indeed carries a truthy id. -/
theorem aggregation_requires_truthy_id_witness :
    truthy (dictGetD [("ticket_id", PyVal.int 3), ("ticket_status", PyVal.str "1")]
      "ticket_id" .none) = true :=
  aggregation_requires_truthy_id.1
    (fun _ => .dict [("success", .bool true),
      ("data", .list [.dict [("ticket_id", .int 3), ("ticket_status", .str "1")]])])
    [("ticket_id", PyVal.int 3), ("ticket_status", PyVal.str "1")]
    (by
      show _ ∈ sortTicketsDesc _
      rw [show ITFlowNewTicketsSensor.all_new_tickets
          (fun _ => .dict [("success", .bool true),
            ("data", .list [.dict [("ticket_id", .int 3), ("ticket_status", .str "1")]])])
        = [[("ticket_id", PyVal.int 3), ("ticket_status", PyVal.str "1")]] from rfl]
      simp [sortTicketsDesc])

/-- C6 (amended): every ticket admitted into the merged result of the
open view has a raw status outside `{"4", "5"}` — Resolved and Closed
are excluded even when the server includes them in a bucket response.
(Raw statuses outside `{1,2,3,New,Open,On Hold}` other than 4 and 5 are
not excluded; see the counterexample.) -/
theorem open_view_excludes_resolved_closed (get_tickets : String → PyVal) :
    ∀ t ∈ ITFlowOpenTicketsSensor.async_update get_tickets,
      pyStr (dictGetD t "ticket_status" (.str "")) ≠ "4" ∧
      pyStr (dictGetD t "ticket_status" (.str "")) ≠ "5" := by
  intro t ht
  have ht' := List.mem_mergeSort.mp ht
  refine foldl_processBucket_forall _
    (fun u => pyStr (dictGetD u "ticket_status" (.str "")) ≠ "4" ∧
      pyStr (dictGetD u "ticket_status" (.str "")) ≠ "5")
    ?_ _ [] (by intro u hu; cases hu) t ht'
  intro kvs h1 _
  simp only [ITFlowOpenTicketsSensor.accept_raw, Bool.not_eq_true',
    Bool.or_eq_false_iff] at h1
  exact ⟨by simpa using h1.1, by simpa using h1.2⟩

/-- Witness for `open_view_excludes_resolved_closed` at a concrete
bucket response. -/
theorem open_view_excludes_resolved_closed_witness :
    pyStr (dictGetD [("ticket_id", PyVal.int 3), ("ticket_status", PyVal.str "2")]
      "ticket_status" (.str "")) ≠ "4" ∧
    pyStr (dictGetD [("ticket_id", PyVal.int 3), ("ticket_status", PyVal.str "2")]
      "ticket_status" (.str "")) ≠ "5" :=
  open_view_excludes_resolved_closed
    (fun s => if s == "2" then
        .dict [("success", .bool true),
          ("data", .list [.dict [("ticket_id", .int 3), ("ticket_status", .str "2")]])]
      else .dict [("success", .bool false)])
    [("ticket_id", PyVal.int 3), ("ticket_status", PyVal.str "2")]
    (by
      show _ ∈ sortTicketsDesc _
      rw [show ITFlowOpenTicketsSensor.all_tickets
          (fun s => if s == "2" then
              .dict [("success", .bool true),
                ("data", .list [.dict [("ticket_id", .int 3), ("ticket_status", .str "2")]])]
            else .dict [("success", .bool false)])
        = [[("ticket_id", PyVal.int 3), ("ticket_status", PyVal.str "2")]] from rfl]
      simp [sortTicketsDesc])

/-- C6 counterexample: a bucket response of the open view containing a
ticket with raw status "7" (outside `{1,2,3,New,Open,On Hold}`) is
admitted into the merged result — the admission test only excludes
"4" and "5". -/
theorem open_view_admits_status7_counterexample :
    ITFlowOpenTicketsSensor.async_update
        (fun s => if s == "1" then
            .dict [("success", .bool true),
              ("data", .list [.dict [("ticket_id", .int 1), ("ticket_status", .str "7")]])]
          else .dict [("success", .bool true), ("data", .list [])])
      = [[("ticket_id", PyVal.int 1), ("ticket_status", PyVal.str "7")]] ∧
    pyStr (dictGetD [("ticket_id", PyVal.int 1), ("ticket_status", PyVal.str "7")]
      "ticket_status" (.str "")) = "7" ∧
    ("7" ∈ ["1", "2", "3", "New", "Open", "On Hold"] → False) := by
  refine ⟨?_, rfl, by decide⟩
  show sortTicketsDesc _ = _
  rw [show ITFlowOpenTicketsSensor.all_tickets
      (fun s => if s == "1" then
          .dict [("success", .bool true),
            ("data", .list [.dict [("ticket_id", .int 1), ("ticket_status", .str "7")]])]
        else .dict [("success", .bool true), ("data", .list [])])
    = [[("ticket_id", PyVal.int 1), ("ticket_status", PyVal.str "7")]] from rfl]
  simp [sortTicketsDesc]

/-- Witness for `map_ticket_status_spec`: the table entry for "1". -/
theorem map_ticket_status_spec_witness :
    map_ticket_status (.str "1") = "New" :=
  map_ticket_status_spec.2.2.2.2.2 ("1", "New") (by decide)

/-! ## `sensor.py`: the bounded attribute encoder

`build_ticket_attributes_with_size_check` rebuilds the attribute mapping
with a shrinking candidate cap until `len(json.dumps(attributes,
default=str))` is under 14000.  The JSON serialization below models
CPython's `json.dumps` with its defaults (`ensure_ascii=True`,
separators `", "` and `": "`); `datetime.now` is passed in as the
`now` string. -/

/-- Lowercase hex digit. -/
def hexDigitChar (n : Nat) : Char :=
  "0123456789abcdef".data.getD n '0'

/-- Four lowercase hex digits. -/
def hex4 (n : Nat) : List Char :=
  [hexDigitChar (n / 4096 % 16), hexDigitChar (n / 256 % 16),
   hexDigitChar (n / 16 % 16), hexDigitChar (n % 16)]

/-- `json.dumps` escaping of one character (`ensure_ascii=True`): quote,
backslash and the short control escapes, `\uXXXX` for other characters
outside `0x20`–`0x7e`, surrogate pairs above `0xffff`. -/
def escChar (c : Char) : List Char :=
  let short : List (Char × Char) :=
    [('"', '"'), ('\\', '\\'), ('\n', 'n'), ('\r', 'r'), ('\t', 't'),
     ('\x08', 'b'), ('\x0c', 'f')]
  match short.find? (fun p => p.1 == c) with
  | some p => ['\\', p.2]
  | Option.none =>
    if 0x20 ≤ c.toNat ∧ c.toNat ≤ 0x7e then [c]
    else if c.toNat ≤ 0xffff then '\\' :: 'u' :: hex4 c.toNat
    else
      '\\' :: 'u' :: hex4 (0xd800 + (c.toNat - 0x10000) / 1024)
        ++ ('\\' :: 'u' :: hex4 (0xdc00 + (c.toNat - 0x10000) % 1024))

/-- Escape a character list. -/
def escList : List Char → List Char
  | [] => []
  | c :: rest => escChar c ++ escList rest

/-- A JSON string literal: quoted, escaped. -/
def escString (s : String) : List Char :=
  '"' :: escList s.data ++ ['"']

mutual

/-- `json.dumps` rendering of one value, as a character list. -/
def dumpsVal : PyVal → List Char
  | .none => "null".data
  | .bool b => (if b then "true" else "false").data
  | .int n => (toString n).data
  | .str s => escString s
  | .list xs => '[' :: dumpsList xs ++ [']']
  | .dict kvs => '\x7b' :: dumpsPairs kvs ++ ['\x7d']

/-- Comma-separated rendering of array elements. -/
def dumpsList : List PyVal → List Char
  | [] => []
  | [x] => dumpsVal x
  | x :: y :: rest => dumpsVal x ++ ',' :: ' ' :: dumpsList (y :: rest)

/-- Comma-separated rendering of object entries (`"key": value`). -/
def dumpsPairs : List (String × PyVal) → List Char
  | [] => []
  | [(k, v)] => escString k ++ ':' :: ' ' :: dumpsVal v
  | (k, v) :: p :: rest =>
      escString k ++ ':' :: ' ' :: dumpsVal v ++ ',' :: ' ' :: dumpsPairs (p :: rest)

end

/-- `json.dumps(v, default=str)` (every modelled value is natively
serializable, so the `default` hook is never invoked). -/
def json_dumps (v : PyVal) : String :=
  String.mk (dumpsVal v)

/-- `attr_size = len(json.dumps(attributes, default=str))`. -/
def attr_size (attributes : List (String × PyVal)) : Nat :=
  (json_dumps (.dict attributes)).length

/-- One entry of the optional `tickets` array
(`build_ticket_attributes_with_size_check`, lines 69–90). -/
def ticket_array_entry (ticket : List (String × PyVal)) : PyVal :=
  let raw_status := dictGetD ticket "ticket_status" (.str "")
  let friendly_status := map_ticket_status raw_status
  .dict [
    ("id", dictGetD ticket "ticket_id" (.str "unknown")),
    ("ticket_id", dictGetD ticket "ticket_id" (.str "unknown")),
    ("number", dictGetD ticket "ticket_number" (dictGetD ticket "ticket_id" (.str "unknown"))),
    ("ticket_number", dictGetD ticket "ticket_number" (dictGetD ticket "ticket_id" (.str "unknown"))),
    ("subject", pyTrunc (dictGetD ticket "ticket_subject" (.str "")) 100),
    ("ticket_subject", pyTrunc (dictGetD ticket "ticket_subject" (.str "")) 100),
    ("priority", dictGetD ticket "ticket_priority" (.str "")),
    ("ticket_priority", dictGetD ticket "ticket_priority" (.str "")),
    ("status", .str friendly_status),
    ("ticket_status", .str friendly_status),
    ("created", dictGetD ticket "ticket_created_at" (.str "")),
    ("details", pyTrunc (dictGetD ticket "ticket_details" (.str "")) 100),
    ("category", dictGetD ticket "ticket_category" (.str "")),
    ("ticket_category", dictGetD ticket "ticket_category" (.str "")),
    ("assigned_to", dictGetD ticket "ticket_assigned_to" (.str "")),
    ("ticket_assigned_to", dictGetD ticket "ticket_assigned_to" (.str ""))]

/-- The flat per-ticket attributes for position `idx` (0-based; keys use
`idx + 1`), from lines 94–107 of `sensor.py`. -/
def ticket_flat_attrs (idx : Nat) (ticket : List (String × PyVal)) : List (String × PyVal) :=
  let ticket_id := dictGetD ticket "ticket_id" (.str "unknown")
  let raw_status := dictGetD ticket "ticket_status" (.str "")
  let friendly_status := map_ticket_status raw_status
  [("ticket_" ++ toString (idx + 1) ++ "_id", ticket_id),
   ("ticket_" ++ toString (idx + 1) ++ "_subject",
     pyTrunc (dictGetD ticket "ticket_subject" (.str "")) 100),
   ("ticket_" ++ toString (idx + 1) ++ "_priority", dictGetD ticket "ticket_priority" (.str "")),
   ("ticket_" ++ toString (idx + 1) ++ "_status", .str friendly_status),
   ("ticket_" ++ toString (idx + 1) ++ "_status_raw", raw_status),
   ("ticket_" ++ toString (idx + 1) ++ "_created", dictGetD ticket "ticket_created_at" (.str "")),
   ("ticket_" ++ toString (idx + 1) ++ "_details",
     pyTrunc (dictGetD ticket "ticket_details" (.str "")) 100),
   ("ticket_" ++ toString (idx + 1) ++ "_category", dictGetD ticket "ticket_category" (.str "")),
   ("ticket_" ++ toString (idx + 1) ++ "_assigned_to",
     dictGetD ticket "ticket_assigned_to" (.str ""))]

/-- One iteration body of the shrink loop: the attribute mapping built
for a candidate cap of `max_tickets`. -/
def build_attributes_once (tickets : List (List (String × PyVal)))
    (include_tickets_array : Bool) (now : String) (max_tickets : Nat) :
    List (String × PyVal) :=
  let limited_tickets := tickets.take max_tickets
  (if include_tickets_array then
      [("tickets", PyVal.list (limited_tickets.map ticket_array_entry))]
    else [])
  ++ (limited_tickets.enum.map (fun p => ticket_flat_attrs p.1 p.2)).flatten
  ++ [("total_tickets", .int tickets.length),
      ("displayed_tickets", .int limited_tickets.length),
      ("last_updated", .str now)]

/-- The `while max_tickets > 0` shrink loop: build at the current cap,
return it if its serialized size is under 14000, otherwise decrement the
cap; when the cap would reach 0 the loop exits returning the mapping
built at cap 1, whether or not it fit.  (The cap-0 argument is the
unreachable loop-entry-with-zero-cap case.) -/
def build_size_check_loop (tickets : List (List (String × PyVal)))
    (include_tickets_array : Bool) (now : String) : Nat → List (String × PyVal)
  | 0 => []
  | Nat.succ m =>
    let attributes := build_attributes_once tickets include_tickets_array now (m + 1)
    if attr_size attributes < 14000 then attributes
    else
      match m with
      | 0 => attributes
      | Nat.succ k => build_size_check_loop tickets include_tickets_array now (Nat.succ k)

/-- `build_ticket_attributes_with_size_check` from `sensor.py`: the
shrink loop started at `max_tickets = 25`. -/
def build_ticket_attributes_with_size_check (tickets : List (List (String × PyVal)))
    (include_tickets_array : Bool) (now : String) : List (String × PyVal) :=
  build_size_check_loop tickets include_tickets_array now 25

/-- The rendering of an object is at least as long as the rendering of
any of its values. -/
theorem le_length_dumpsPairs : ∀ (kvs : List (String × PyVal)) (k : String) (v : PyVal),
    (k, v) ∈ kvs → (dumpsVal v).length ≤ (dumpsPairs kvs).length
  | [], _, _, h => absurd h (List.not_mem_nil _)
  | [(k0, v0)], k, v, h => by
    have hkv : k = k0 ∧ v = v0 := by simpa [Prod.ext_iff] using h
    obtain ⟨rfl, rfl⟩ := hkv
    simp only [dumpsPairs, List.length_append, List.length_cons]
    omega
  | (k0, v0) :: p :: rest, k, v, h => by
    rcases List.mem_cons.mp h with heq | htail
    · have hkv : k = k0 ∧ v = v0 := by simpa [Prod.ext_iff] using heq
      obtain ⟨rfl, rfl⟩ := hkv
      simp only [dumpsPairs, List.length_append, List.length_cons]
      omega
    · have ih := le_length_dumpsPairs (p :: rest) k v htail
      simp only [dumpsPairs, List.length_append, List.length_cons]
      omega

/-- The serialized size of the attribute mapping is at least the
rendered size of any one of its values. -/
theorem le_attr_size (attributes : List (String × PyVal)) (k : String) (v : PyVal)
    (h : (k, v) ∈ attributes) : (dumpsVal v).length ≤ attr_size attributes := by
  have h1 := le_length_dumpsPairs attributes k v h
  show (dumpsVal v).length ≤ (String.mk (dumpsVal (.dict attributes))).length
  simp only [String.length, dumpsVal, List.length_cons, List.length_append]
  omega

/-- A 17000-character `ticket_category` value: subject and details are
truncated to 100 characters by the encoder, but category is not. -/
def oversizedCategory : String := String.mk (List.replicate 17000 'x')

/-- The failing input for the size claim: a single ticket whose
(untruncated) category field alone renders larger than the 16384-byte
budget. -/
def oversizedTicket : List (String × PyVal) :=
  [("ticket_id", .int 1), ("ticket_status", .str "1"),
   ("ticket_category", .str oversizedCategory)]

/-- Escaping fixes runs of `'x'`. -/
theorem escList_replicate_x (n : Nat) :
    escList (List.replicate n 'x') = List.replicate n 'x' := by
  induction n with
  | zero => rfl
  | succ k ih =>
    rw [List.replicate_succ, escList, ih, show escChar 'x' = ['x'] from by decide]
    rfl

/-- The category value renders as 17002 characters. -/
theorem dumpsVal_oversizedCategory : (dumpsVal (.str oversizedCategory)).length = 17002 := by
  show ('"' :: escList (String.mk (List.replicate 17000 'x')).data ++ ['"']).length = 17002
  rw [show (String.mk (List.replicate 17000 'x')).data = List.replicate 17000 'x' from rfl,
    escList_replicate_x]
  simp only [List.length_cons, List.length_append, List.length_replicate,
    List.length_singleton, List.length_nil]

/-- The mapping built at cap 1 for the oversized singleton input. -/
theorem build_once_eq (now : String) :
    build_attributes_once [oversizedTicket] false now 1
      = [("ticket_1_id", .int 1),
         ("ticket_1_subject", .str ""),
         ("ticket_1_priority", .str ""),
         ("ticket_1_status", .str "New"),
         ("ticket_1_status_raw", .str "1"),
         ("ticket_1_created", .str ""),
         ("ticket_1_details", .str ""),
         ("ticket_1_category", .str oversizedCategory),
         ("ticket_1_assigned_to", .str ""),
         ("total_tickets", .int 1),
         ("displayed_tickets", .int 1),
         ("last_updated", .str now)] := rfl

/-- For a one-ticket input the built mapping does not depend on the cap
(any positive cap keeps the single ticket). -/
theorem build_once_singleton (inc : Bool) (now : String) (t : List (String × PyVal)) (m : Nat) :
    build_attributes_once [t] inc now (m + 1) = build_attributes_once [t] inc now 1 := by
  simp [build_attributes_once]

/-- When every cap's mapping is at least 14000 bytes, the shrink loop
runs the cap all the way down and returns the cap-1 mapping. -/
theorem build_loop_all_oversized (tickets : List (List (String × PyVal)))
    (inc : Bool) (now : String)
    (h : ∀ m : Nat, 14000 ≤ attr_size (build_attributes_once tickets inc now (m + 1))) :
    ∀ m : Nat, build_size_check_loop tickets inc now (m + 1)
      = build_attributes_once tickets inc now 1 := by
  intro m
  induction m with
  | zero =>
    have h0 := h 0
    simp only [build_size_check_loop]
    rw [if_neg (by omega)]
  | succ k ih =>
    have hk := h (k + 1)
    simp only [build_size_check_loop]
    rw [if_neg (by omega)]
    exact ih

/-- Every cap's mapping for the oversized singleton is over the
threshold. -/
theorem oversized_all_caps (now : String) (m : Nat) :
    14000 ≤ attr_size (build_attributes_once [oversizedTicket] false now (m + 1)) := by
  rw [build_once_singleton]
  have hmem : ("ticket_1_category", PyVal.str oversizedCategory)
      ∈ build_attributes_once [oversizedTicket] false now 1 := by
    rw [build_once_eq]; simp
  have hle := le_attr_size _ _ _ hmem
  have hlen := dumpsVal_oversizedCategory
  omega

/-- C2 (failing input evaluated): on a single ticket whose
`ticket_category` is 17000 characters, the returned mapping's
`json.dumps` size is at least 16384 — not strictly below the size
budget — and the mapping still contains the per-ticket keys rather than
being the summary-only cap-0 mapping (the `while max_tickets > 0` loop
exits after the cap-1 iteration without ever building the
empty-candidate mapping). -/
theorem build_ticket_attributes_oversized (now : String) :
    16384 ≤ attr_size (build_ticket_attributes_with_size_check [oversizedTicket] false now) ∧
    ("ticket_1_category", PyVal.str oversizedCategory)
      ∈ build_ticket_attributes_with_size_check [oversizedTicket] false now := by
  have hloop : build_ticket_attributes_with_size_check [oversizedTicket] false now
      = build_attributes_once [oversizedTicket] false now 1 :=
    build_loop_all_oversized _ _ _ (oversized_all_caps now) 24
  constructor
  · rw [hloop]
    have hmem : ("ticket_1_category", PyVal.str oversizedCategory)
        ∈ build_attributes_once [oversizedTicket] false now 1 := by
      rw [build_once_eq]; simp
    have hle := le_attr_size _ _ _ hmem
    have hlen := dumpsVal_oversizedCategory
    omega
  · rw [hloop, build_once_eq]
    simp

/-! ## `button.py`: the document-publishing flow

`ITFlowUpdateDocumentButton.async_press` walks a fixed table of document
kinds; for each kind it looks up the configured document id, skips the
kind when that id is falsy, generates content, calls
`ITFlowClient.update_document`, and classifies the attempt by the
returned envelope's `success` flag, catching any exception as a failure
for that kind only.  Content generation (`await method(self.hass)`) is
passed in as `generate : String → Except String PyVal`, whose `error`
constructor models an exception; `Except.error` from `update_document`
likewise models an exception raised during the call. -/

/-- One row of the `doc_config` table: config key, content-generation
method name, and document name. -/
structure DocKindSpec where
  conf_key : String
  method_name : String
  doc_name : String

/-- How one document kind's processing ended. -/
inductive KindOutcome where
  | skipped
  | succeeded
  | failed
deriving DecidableEq

/-- The per-kind record refining the loop's counters: which kind, its
outcome, and the remote calls issued for it. -/
structure KindResult where
  conf_key : String
  outcome : KindOutcome
  calls : List Call

namespace ITFlowUpdateDocumentButton

/-- The `doc_config` table from `async_press`.  The `CONF_DOC_ID_*`
constants it is keyed by are imported from `const.py` but their string
values are not present in the sources; they act only as opaque lookup
keys into the config entry's data and are represented by placeholder
strings here. -/
def doc_config (title : String) : List DocKindSpec :=
  [⟨"doc_id_general", "get_system_info", "HA General Info - " ++ title⟩,
   ⟨"doc_id_automations", "get_automation_status", "HA Automations - " ++ title⟩,
   ⟨"doc_id_integrations", "get_integrations_info", "HA Integrations - " ++ title⟩,
   ⟨"doc_id_backup", "get_backup_status", "HA Backup Status - " ++ title⟩,
   ⟨"doc_id_proxmox", "_get_proxmox_info", "Proxmox Info - " ++ title⟩]

/-- One iteration of the `async_press` loop: skip a falsy configured id;
count a generation exception as a failure for this kind; skip a falsy
Proxmox content; otherwise call `update_document` and classify by the
envelope's `success` flag, counting an exception from the call as a
failure. -/
def process_document_kind (remote : Call → PyVal) (client_id : PyVal)
    (entry_data : String → PyVal) (generate : String → Except String PyVal)
    (now : String) (kind : DocKindSpec) : KindResult :=
  let doc_id := entry_data kind.conf_key
  if !truthy doc_id then ⟨kind.conf_key, .skipped, []⟩
  else
    match generate kind.method_name with
    | .error _ => ⟨kind.conf_key, .failed, []⟩
    | .ok document_content =>
      if kind.method_name == "_get_proxmox_info" && !truthy document_content then
        ⟨kind.conf_key, .skipped, []⟩
      else
        let result := ITFlowClient.update_document remote client_id doc_id
          (.str kind.doc_name) document_content (.str ("Manual update - " ++ now))
        match result.2 with
        | .error _ => ⟨kind.conf_key, .failed, result.1⟩
        | .ok response =>
          if truthy (pyGetD response "success" .none) then
            ⟨kind.conf_key, .succeeded, result.1⟩
          else ⟨kind.conf_key, .failed, result.1⟩

/-- `ITFlowUpdateDocumentButton.async_press`: every kind of the table is
processed in order, each by `process_document_kind`. -/
def async_press (remote : Call → PyVal) (client_id : PyVal)
    (entry_data : String → PyVal) (generate : String → Except String PyVal)
    (now title : String) : List KindResult :=
  (doc_config title).map (process_document_kind remote client_id entry_data generate now)

/-- The `updates_successful` counter. -/
def updates_successful (results : List KindResult) : Nat :=
  (results.filter (fun r => r.outcome == KindOutcome.succeeded)).length

/-- The `updates_failed` counter. -/
def updates_failed (results : List KindResult) : Nat :=
  (results.filter (fun r => r.outcome == KindOutcome.failed)).length

end ITFlowUpdateDocumentButton

/-- A configured id that fails the positive-integer validation in
`update_document`: `int()` raises, or the coerced value is ≤ 0. -/
def invalidDocId (v : PyVal) : Bool :=
  match pyInt v with
  | Option.none => true
  | some n => decide (n ≤ 0)

/-- The failure envelopes carry a falsy `success` flag. -/
theorem truthy_failEnvelope_success (msg : String) :
    truthy (pyGetD (failEnvelope msg) "success" .none) = false := rfl

/-- C1 (amended): a falsy configured document id (`0`, `None`, `""`) is
skipped entirely — no remote call and no failure recorded; a truthy
configured id that fails the positive-integer validation (non-numeric,
or coercing to ≤ 0, e.g. `"0"`, `-3`, `"abc"`) short-circuits
`update_document` locally with a failure envelope, issues zero remote
calls, is never counted as succeeded, and (whenever generation returns
usable content) is recorded as failed for that kind. -/
theorem document_id_validation (remote : Call → PyVal) (client_id : PyVal)
    (entry_data : String → PyVal) (generate : String → Except String PyVal)
    (now : String) (kind : DocKindSpec) :
    (truthy (entry_data kind.conf_key) = false →
      ITFlowUpdateDocumentButton.process_document_kind remote client_id entry_data
          generate now kind
        = ⟨kind.conf_key, .skipped, []⟩) ∧
    (truthy (entry_data kind.conf_key) = true →
     invalidDocId (entry_data kind.conf_key) = true →
      ((∀ name content descr, ITFlowClient.update_document remote client_id
            (entry_data kind.conf_key) name content descr
          = ([], .ok (failEnvelope ("Invalid document_id: "
              ++ pyStr (entry_data kind.conf_key))))) ∧
       (ITFlowUpdateDocumentButton.process_document_kind remote client_id entry_data
          generate now kind).calls = [] ∧
       (ITFlowUpdateDocumentButton.process_document_kind remote client_id entry_data
          generate now kind).outcome ≠ KindOutcome.succeeded ∧
       (∀ content, generate kind.method_name = .ok content →
         (kind.method_name == "_get_proxmox_info" && !truthy content) = false →
         ITFlowUpdateDocumentButton.process_document_kind remote client_id entry_data
             generate now kind
           = ⟨kind.conf_key, .failed, []⟩))) := by
  constructor
  · intro h
    simp [ITFlowUpdateDocumentButton.process_document_kind, h]
  · intro ht hinv
    have hupd : ∀ name content descr, ITFlowClient.update_document remote client_id
        (entry_data kind.conf_key) name content descr
      = ([], .ok (failEnvelope ("Invalid document_id: "
          ++ pyStr (entry_data kind.conf_key)))) := by
      intro name content descr
      rcases hpi : pyInt (entry_data kind.conf_key) with _ | n
      · simp [ITFlowClient.update_document, ht, hpi]
      · have hn : n ≤ 0 := by simpa [invalidDocId, hpi] using hinv
        simp [ITFlowClient.update_document, ht, hpi, hn]
    have hfourth : ∀ content, generate kind.method_name = .ok content →
        (kind.method_name == "_get_proxmox_info" && !truthy content) = false →
        ITFlowUpdateDocumentButton.process_document_kind remote client_id entry_data
            generate now kind
          = ⟨kind.conf_key, .failed, []⟩ := by
      intro content hgen hp
      simp [ITFlowUpdateDocumentButton.process_document_kind, ht, hgen, hp,
        hupd (.str kind.doc_name) content (.str ("Manual update - " ++ now)),
        truthy_failEnvelope_success]
    have hcases : ITFlowUpdateDocumentButton.process_document_kind remote client_id
          entry_data generate now kind = ⟨kind.conf_key, .failed, []⟩ ∨
        ITFlowUpdateDocumentButton.process_document_kind remote client_id
          entry_data generate now kind = ⟨kind.conf_key, .skipped, []⟩ := by
      cases hgen : generate kind.method_name with
      | error e =>
        left
        simp [ITFlowUpdateDocumentButton.process_document_kind, ht, hgen]
      | ok content =>
        by_cases hp : (kind.method_name == "_get_proxmox_info" && !truthy content) = true
        · right
          simp [ITFlowUpdateDocumentButton.process_document_kind, ht, hgen, hp]
        · left
          exact hfourth content hgen (by simpa using hp)
    refine ⟨hupd, ?_, ?_, hfourth⟩
    · rcases hcases with h | h <;> rw [h]
    · rcases hcases with h | h <;> rw [h] <;> simp

/-- Witness for `document_id_validation`: the truthy but non-positive
configured id `"0"` yields zero remote calls, a local failure envelope,
and a failed outcome. -/
theorem document_id_validation_witness :
    ((∀ name content descr, ITFlowClient.update_document (fun _ => failEnvelope "unused")
          (.int 9) ((fun _ => PyVal.str "0") "doc_id_general") name content descr
        = ([], .ok (failEnvelope ("Invalid document_id: "
            ++ pyStr ((fun _ => PyVal.str "0") "doc_id_general"))))) ∧
     (ITFlowUpdateDocumentButton.process_document_kind (fun _ => failEnvelope "unused")
        (.int 9) (fun _ => PyVal.str "0") (fun _ => .ok (.str "content")) "2026-01-01"
        ⟨"doc_id_general", "get_system_info", "N"⟩).calls = [] ∧
     (ITFlowUpdateDocumentButton.process_document_kind (fun _ => failEnvelope "unused")
        (.int 9) (fun _ => PyVal.str "0") (fun _ => .ok (.str "content")) "2026-01-01"
        ⟨"doc_id_general", "get_system_info", "N"⟩).outcome ≠ KindOutcome.succeeded ∧
     (∀ content, (fun _ => (.ok (.str "content") : Except String PyVal)) "get_system_info"
          = .ok content →
       (("get_system_info" : String) == "_get_proxmox_info" && !truthy content) = false →
       ITFlowUpdateDocumentButton.process_document_kind (fun _ => failEnvelope "unused")
           (.int 9) (fun _ => PyVal.str "0") (fun _ => .ok (.str "content")) "2026-01-01"
           ⟨"doc_id_general", "get_system_info", "N"⟩
         = ⟨"doc_id_general", .failed, []⟩)) :=
  (document_id_validation (fun _ => failEnvelope "unused") (.int 9)
      (fun _ => PyVal.str "0") (fun _ => .ok (.str "content")) "2026-01-01"
      ⟨"doc_id_general", "get_system_info", "N"⟩).2 (by decide) (by decide)

/-- C1 counterexample: a document kind whose configured id is the
integer `0` is falsy, so the publishing loop skips it silently — zero
remote calls, but no failure result and no increment of the failure
counter, contrary to the claim that an id of 0 is recorded as failed. -/
theorem publish_zero_id_counterexample :
    ITFlowUpdateDocumentButton.async_press (fun _ => failEnvelope "unused") (.int 9)
        (fun key => if key == "doc_id_general" then .int 0 else .none)
        (fun _ => .ok (.str "content")) "2026-01-01" "T"
      = [⟨"doc_id_general", .skipped, []⟩, ⟨"doc_id_automations", .skipped, []⟩,
         ⟨"doc_id_integrations", .skipped, []⟩, ⟨"doc_id_backup", .skipped, []⟩,
         ⟨"doc_id_proxmox", .skipped, []⟩] ∧
    ITFlowUpdateDocumentButton.updates_failed
      (ITFlowUpdateDocumentButton.async_press (fun _ => failEnvelope "unused") (.int 9)
        (fun key => if key == "doc_id_general" then .int 0 else .none)
        (fun _ => .ok (.str "content")) "2026-01-01" "T") = 0 :=
  ⟨rfl, rfl⟩

/-- C9: during a publishing run each document kind is processed in
isolation.  A generation exception marks only that kind failed with no
remote call; an exception raised by the update call marks it failed,
keeping the calls it made; a completed call is classified purely by the
envelope's `success` flag; a kind's result depends only on its own
generator output (so one kind's exception cannot change another's
processing); the failure counter adds exactly one per failed kind; and
the run processes every kind of the table. -/
theorem publish_partial_failure_isolation (remote : Call → PyVal) (client_id : PyVal)
    (entry_data : String → PyVal) (generate generate' : String → Except String PyVal)
    (now : String) (kind : DocKindSpec) :
    (∀ e, truthy (entry_data kind.conf_key) = true →
      generate kind.method_name = .error e →
      ITFlowUpdateDocumentButton.process_document_kind remote client_id entry_data
          generate now kind
        = ⟨kind.conf_key, .failed, []⟩) ∧
    (∀ content calls e, truthy (entry_data kind.conf_key) = true →
      generate kind.method_name = .ok content →
      (kind.method_name == "_get_proxmox_info" && !truthy content) = false →
      ITFlowClient.update_document remote client_id (entry_data kind.conf_key)
          (.str kind.doc_name) content (.str ("Manual update - " ++ now))
        = (calls, .error e) →
      ITFlowUpdateDocumentButton.process_document_kind remote client_id entry_data
          generate now kind
        = ⟨kind.conf_key, .failed, calls⟩) ∧
    (∀ content calls response, truthy (entry_data kind.conf_key) = true →
      generate kind.method_name = .ok content →
      (kind.method_name == "_get_proxmox_info" && !truthy content) = false →
      ITFlowClient.update_document remote client_id (entry_data kind.conf_key)
          (.str kind.doc_name) content (.str ("Manual update - " ++ now))
        = (calls, .ok response) →
      ITFlowUpdateDocumentButton.process_document_kind remote client_id entry_data
          generate now kind
        = ⟨kind.conf_key,
           if truthy (pyGetD response "success" .none) then .succeeded else .failed,
           calls⟩) ∧
    (generate kind.method_name = generate' kind.method_name →
      ITFlowUpdateDocumentButton.process_document_kind remote client_id entry_data
          generate now kind
        = ITFlowUpdateDocumentButton.process_document_kind remote client_id entry_data
            generate' now kind) ∧
    (∀ (r : KindResult) (rs : List KindResult),
      ITFlowUpdateDocumentButton.updates_failed (r :: rs)
        = (if r.outcome = KindOutcome.failed then 1 else 0)
          + ITFlowUpdateDocumentButton.updates_failed rs) ∧
    (∀ title, ITFlowUpdateDocumentButton.async_press remote client_id entry_data
        generate now title
      = (ITFlowUpdateDocumentButton.doc_config title).map
          (ITFlowUpdateDocumentButton.process_document_kind remote client_id entry_data
            generate now)) := by
  refine ⟨?_, ?_, ?_, ?_, ?_, fun title => rfl⟩
  · intro e ht hgen
    simp [ITFlowUpdateDocumentButton.process_document_kind, ht, hgen]
  · intro content calls e ht hgen hp hupd
    simp [ITFlowUpdateDocumentButton.process_document_kind, ht, hgen, hp, hupd]
  · intro content calls response ht hgen hp hupd
    by_cases hs : truthy (pyGetD response "success" .none) = true
    · simp [ITFlowUpdateDocumentButton.process_document_kind, ht, hgen, hp, hupd, hs]
    · simp [ITFlowUpdateDocumentButton.process_document_kind, ht, hgen, hp, hupd, hs]
  · intro h
    simp only [ITFlowUpdateDocumentButton.process_document_kind, h]
  · intro r rs
    by_cases h : (r.outcome == KindOutcome.failed) = true
    · have h' : r.outcome = KindOutcome.failed := by simpa using h
      simp [ITFlowUpdateDocumentButton.updates_failed, List.filter_cons, h, h']
      omega
    · have h' : ¬ r.outcome = KindOutcome.failed := by simpa using h
      simp [ITFlowUpdateDocumentButton.updates_failed, List.filter_cons, h, h']

/-- Witness for `publish_partial_failure_isolation`: a generation
exception yields a failed outcome with zero calls for that kind. -/
theorem publish_partial_failure_isolation_witness :
    ITFlowUpdateDocumentButton.process_document_kind (fun _ => failEnvelope "unused")
        (.int 9) (fun _ => PyVal.int 3) (fun _ => .error "boom") "2026-01-01"
        ⟨"doc_id_general", "get_system_info", "N"⟩
      = ⟨"doc_id_general", .failed, []⟩ :=
  (publish_partial_failure_isolation (fun _ => failEnvelope "unused") (.int 9)
      (fun _ => PyVal.int 3) (fun _ => .error "boom") (fun _ => .error "boom") "2026-01-01"
      ⟨"doc_id_general", "get_system_info", "N"⟩).1 "boom" (by decide) rfl
